import Mathlib

/-!
Verification of the SMPP HLR gateway (smpp-hlr-gateway-dlv).

The definitions below are a shallow embedding of the Python source:
  - `src/hlr/client.py`     (`HLRClient._classify_result`)
  - `src/smpp/handler.py`   (`SubmitSMHandler.handle_submit_sm`, `_send_DELIVRD_dlr`)
  - `src/smpp/pdu_builder.py` (`generate_message_id`, `format_smpp_date`,
    `build_dlr_text`, `get_error_code_from_hlr`)
  - `src/smpp/server.py`    (`SMPPSession.run` framing, `_process_pdu`,
    `_handle_bind`, `_handle_unbind`, `_handle_enquire_link`,
    `_handle_submit_sm`, `send_deliver_sm`)

Python dict fields that may be absent are modelled with `Option`; `d.get(k, v)`
becomes `Option.getD`.  Exceptions raised by the HLR lookup are modelled by a
sum type of lookup outcomes.  `asyncio.create_task(self._send_DELIVRD_dlr ...)`
is modelled by returning the list of scheduled DLR tasks.
-/

namespace Smpp

/-- An HLR result record (a Python dict).  Only the fields the embedded code
reads are modelled; each may be absent.  `error`/`status` are the TMT integer
fields, `present` the `"yes"/"no"/"na"` marker, `classification` the string
stamped by `HLRClient._sync_hlr_request`. -/
structure HlrRecord where
  error : Option Int := none
  status : Option Int := none
  present : Option String := none
  classification : Option String := none
deriving DecidableEq

/-- `HLRClient._classify_result` (src/hlr/client.py lines 76-91):
`error = result.get("error", 0)`, `status = result.get("status", 1)`,
valid iff `error == 0 and status == 0`. -/
def classify_result (result : HlrRecord) : String :=
  let error := result.error.getD 0
  let status := result.status.getD 1
  if error = 0 ∧ status = 0 then "valid" else "invalid"

/-- SMPP command status `ESME_ROK` (src/smpp/handler.py line 25). -/
def ESME_ROK : Nat := 0x00000000

/-- SMPP command status `ESME_RINVDSTADR` (src/smpp/handler.py line 26). -/
def ESME_RINVDSTADR : Nat := 0x0000000B

/-- SMPP command status `ESME_RSYSERR` (src/smpp/handler.py line 27). -/
def ESME_RSYSERR : Nat := 0x00000008

/-- Outcome of `await hlr_client.lookup(destination_addr)` as observed by
`handle_submit_sm`: a result dict, an `httpx.TimeoutException`, or any other
exception. -/
inductive LookupOutcome where
  | result (r : HlrRecord)
  | timeout
  | failure
deriving DecidableEq

/-- The dict returned by `SubmitSMHandler.handle_submit_sm`:
`{"command_status": ..., "message_id": ...}`. -/
structure SubmitResponse where
  command_status : Nat
  message_id : Option String
deriving DecidableEq

/-- One scheduled `_send_DELIVRD_dlr` task: the arguments passed to
`asyncio.create_task` in src/smpp/handler.py lines 115-122. -/
structure DlrTask where
  message_id : String
  destination_addr : String
  source_addr : String
  hlr_result : HlrRecord
deriving DecidableEq

/-- `SubmitSMHandler.handle_submit_sm` (src/smpp/handler.py lines 42-169),
with the already-generated `message_id`, the configured
`settings.hlr_timeout_policy` and the lookup outcome as inputs.  Returns the
response dict (`none` models the implicit `return None` of the Python function
when the timeout policy is not `"reject"`) together with the list of DLR tasks
scheduled via `asyncio.create_task`. -/
def handle_submit_sm (message_id : String) (hlr_timeout_policy : String)
    (source_addr destination_addr : String) (outcome : LookupOutcome) :
    Option SubmitResponse × List DlrTask :=
  match outcome with
  | .result hlr_result =>
    let classification := hlr_result.classification.getD "invalid"
    if classification = "valid" then
      (some ⟨ESME_RINVDSTADR, none⟩, [])
    else
      (some ⟨ESME_ROK, some message_id⟩,
       [⟨message_id, destination_addr, source_addr, hlr_result⟩])
  | .timeout =>
    if hlr_timeout_policy = "reject" then
      (some ⟨ESME_RSYSERR, none⟩, [])
    else
      (none, [])
  | .failure =>
    (some ⟨ESME_RSYSERR, none⟩, [])

/-- Lower-case hexadecimal digit character, as produced by the `%x`
formatting of UUID bytes in Python. -/
def hexChar (n : Nat) : Char :=
  if n = 0 then '0' else if n = 1 then '1' else if n = 2 then '2'
  else if n = 3 then '3' else if n = 4 then '4' else if n = 5 then '5'
  else if n = 6 then '6' else if n = 7 then '7' else if n = 8 then '8'
  else if n = 9 then '9' else if n = 10 then 'a' else if n = 11 then 'b'
  else if n = 12 then 'c' else if n = 13 then 'd' else if n = 14 then 'e'
  else 'f'

/-- Two lower-case hex digits of one byte. -/
def byteHex (b : Nat) : String :=
  String.mk [hexChar (b / 16 % 16), hexChar (b % 16)]

/-- Hex string of a byte list. -/
def bytesHex (bs : List Nat) : String :=
  String.join (bs.map byteHex)

/-- The version/variant bit fixing done by `uuid.UUID(bytes=..., version=4)`:
byte 6 gets `(b & 0x0F) | 0x40`, byte 8 gets `(b & 0x3F) | 0x80`. -/
def setUuid4Bits (bs : List Nat) : List Nat :=
  bs.mapIdx fun i b =>
    if i = 6 then b % 16 + 0x40 else if i = 8 then b % 64 + 0x80 else b % 256

/-- `str(uuid.uuid4())` applied to the 16 random bytes drawn by `uuid.uuid4`:
the 32 hex digits grouped 8-4-4-4-12 with hyphens. -/
def uuid4_string (bs : List Nat) : String :=
  let b := setUuid4Bits bs
  bytesHex (b.take 4) ++ "-" ++ bytesHex ((b.drop 4).take 2) ++ "-" ++
    bytesHex ((b.drop 6).take 2) ++ "-" ++ bytesHex ((b.drop 8).take 2) ++ "-" ++
    bytesHex (b.drop 10)

/-- `generate_message_id` (src/smpp/pdu_builder.py lines 9-11):
`return str(uuid.uuid4())`, as a function of the 16 random bytes. -/
def generate_message_id (randomBytes : List Nat) : String :=
  uuid4_string randomBytes

/-- The datetime fields read by `strftime("%y%m%d%H%M")`. -/
structure PyDateTime where
  year : Nat
  month : Nat
  day : Nat
  hour : Nat
  minute : Nat
deriving DecidableEq

/-- Field ranges guaranteed by the `datetime` constructor in Python (so by
`datetime.now()`). -/
def PyDateTime.inRange (d : PyDateTime) : Prop :=
  1 ≤ d.month ∧ d.month ≤ 12 ∧ 1 ≤ d.day ∧ d.day ≤ 31 ∧
    d.hour ≤ 23 ∧ d.minute ≤ 59

instance (d : PyDateTime) : Decidable d.inRange := by
  unfold PyDateTime.inRange; infer_instance

/-- Zero-padded two-digit decimal field, as `strftime` renders `%m`, `%d`,
`%H`, `%M` and `%y` for their in-range values. -/
def pad2 (n : Nat) : String :=
  if n < 10 then "0" ++ toString n else toString n

/-- `format_smpp_date` (src/smpp/pdu_builder.py lines 14-20):
`dt.strftime("%y%m%d%H%M")`. -/
def format_smpp_date (dt : PyDateTime) : String :=
  pad2 (dt.year % 100) ++ pad2 dt.month ++ pad2 dt.day ++ pad2 dt.hour ++
    pad2 dt.minute

/-- `build_dlr_text` (src/smpp/pdu_builder.py lines 23-60), with the two
`datetime.now()` defaults passed explicitly. -/
def build_dlr_text (message_id stat err : String)
    (submit_date done_date : PyDateTime) : String :=
  "id:" ++ message_id ++ " " ++
  "sub:001 " ++
  "dlvrd:000 " ++
  "submit date:" ++ format_smpp_date submit_date ++ " " ++
  "done date:" ++ format_smpp_date done_date ++ " " ++
  "stat:" ++ stat ++ " " ++
  "err:" ++ err ++ " " ++
  "text:"

/-- `get_error_code_from_hlr` (src/smpp/pdu_builder.py lines 63-91): the
branch chain over `status`, `error` and `present`. -/
def get_error_code_from_hlr (hlr_result : HlrRecord) : String :=
  let error := hlr_result.error.getD 0
  let status := hlr_result.status.getD 0
  let present := hlr_result.present.getD "na"
  if status = 1 then "000"
  else if error = 1 then "000"
  else if error = 2 then "000"
  else if error = 191 ∨ error = 192 then "000"
  else if error = 193 then "000"
  else if present = "no" then "000"
  else "000"

/-- Specification-side predicate (from the words of the spec, for comparison with
`build_dlr_text`): membership in the language of the anchored regular
expression
`^id:\S+ sub:001 dlvrd:000 submit date:\d\x7b10\x7d done date:\d\x7b10\x7d stat:DELIVRD err:000 text:$`. -/
def dlrRegexSpec (s : String) : Prop :=
  ∃ mid d1 d2 : String,
    s = "id:" ++ mid ++ " sub:001 dlvrd:000 submit date:" ++ d1 ++
        " done date:" ++ d2 ++ " stat:DELIVRD err:000 text:" ∧
    mid.length > 0 ∧ (∀ c ∈ mid.data, ¬ c.isWhitespace) ∧
    d1.length = 10 ∧ (∀ c ∈ d1.data, c.isDigit) ∧
    d2.length = 10 ∧ (∀ c ∈ d2.data, c.isDigit)

/-- `BIND_TRANSMITTER` command id (src/smpp/server.py line 16). -/
def SMPP_CMD_BIND_TRANSMITTER : Nat := 0x00000001

/-- `BIND_RECEIVER` command id (src/smpp/server.py line 18). -/
def SMPP_CMD_BIND_RECEIVER : Nat := 0x00000002

/-- `BIND_TRANSCEIVER` command id (src/smpp/server.py line 20). -/
def SMPP_CMD_BIND_TRANSCEIVER : Nat := 0x00000009

/-- `UNBIND` command id (src/smpp/server.py line 22). -/
def SMPP_CMD_UNBIND : Nat := 0x00000006

/-- `UNBIND_RESP` command id (src/smpp/server.py line 23). -/
def SMPP_CMD_UNBIND_RESP : Nat := 0x80000006

/-- `SUBMIT_SM` command id (src/smpp/server.py line 24). -/
def SMPP_CMD_SUBMIT_SM : Nat := 0x00000004

/-- `SUBMIT_SM_RESP` command id (src/smpp/server.py line 25). -/
def SMPP_CMD_SUBMIT_SM_RESP : Nat := 0x80000004

/-- `ENQUIRE_LINK` command id (src/smpp/server.py line 26). -/
def SMPP_CMD_ENQUIRE_LINK : Nat := 0x00000015

/-- `ENQUIRE_LINK_RESP` command id (src/smpp/server.py line 27). -/
def SMPP_CMD_ENQUIRE_LINK_RESP : Nat := 0x80000015

/-- `ESME_RINVBNDSTS` status (src/smpp/server.py line 29). -/
def SMPP_ESME_RINVBNDSTS : Nat := 0x00000004

/-- `ESME_RINVPASWD` status (src/smpp/server.py line 30). -/
def SMPP_ESME_RINVPASWD : Nat := 0x0000000E

/-- `DELIVER_SM` command id (src/smpp/server.py line 31). -/
def SMPP_CMD_DELIVER_SM : Nat := 0x00000005

/-- `DELIVER_SM_RESP` command id (src/smpp/server.py line 32). -/
def SMPP_CMD_DELIVER_SM_RESP : Nat := 0x80000005

/-- Outcome of one iteration of the framing loop in `SMPPSession.run`
(src/smpp/server.py lines 115-146): either the loop breaks because
`readexactly` raised `asyncio.IncompleteReadError` (the stream ended
mid-header or mid-body), or a PDU was framed, leaving the unconsumed rest of
the stream. -/
inductive ReadPduResult where
  | shortRead
  | ok (command_length command_id command_status sequence : Nat)
      (body : List Nat) (rest : List Nat)
deriving DecidableEq

/-- Big-endian 32-bit word from four bytes, as `struct.unpack(">IIII", ...)`
reads each field. -/
def beWord (a b c d : Nat) : Nat :=
  ((a * 256 + b) * 256 + c) * 256 + d

/-- The framing step of `SMPPSession.run` (src/smpp/server.py lines 115-146):
`header = await self.reader.readexactly(16)`, unpack four big-endian words,
`body_length = command_length - 16`, and
`if body_length > 0: body = await self.reader.readexactly(body_length)`.
There is no check on `command_length` beyond this arithmetic. -/
def read_pdu (stream : List Nat) : ReadPduResult :=
  if stream.length < 16 then .shortRead
  else
    let byte := fun i => stream.getD i 0
    let command_length := beWord (byte 0) (byte 1) (byte 2) (byte 3)
    let command_id := beWord (byte 4) (byte 5) (byte 6) (byte 7)
    let command_status := beWord (byte 8) (byte 9) (byte 10) (byte 11)
    let sequence := beWord (byte 12) (byte 13) (byte 14) (byte 15)
    if 16 < command_length then
      if stream.length < command_length then .shortRead
      else
        .ok command_length command_id command_status sequence
          ((stream.drop 16).take (command_length - 16)) (stream.drop command_length)
    else
      .ok command_length command_id command_status sequence [] (stream.drop 16)

/-- Per-connection mutable state of `SMPPSession` (src/smpp/server.py lines
99-113): `authenticated`, `system_id`, `sequence_number`. -/
structure SessionState where
  authenticated : Bool := false
  system_id : Option String := none
  sequence_number : Nat := 1
deriving DecidableEq

/-- Server configuration read by the session:
`settings.smpp_system_id` and `settings.smpp_password` (src/config.py lines
15-16). -/
structure ServerConfig where
  smpp_system_id : String
  smpp_password : String
deriving DecidableEq

/-- One PDU written to the peer socket by the session:
`_send_response` packs `>IIII` header (length, command id, status, sequence)
and appends the body bytes (src/smpp/server.py lines 348-366). -/
structure SentPdu where
  command_id : Nat
  command_status : Nat
  sequence : Nat
  body : List Nat
deriving DecidableEq

/-- ASCII bytes of a string, as `str.encode("ascii")`. -/
def strBytes (s : String) : List Nat :=
  s.data.map Char.toNat

/-- A PDU dispatched by `_process_pdu` (src/smpp/server.py lines 161-204),
already parsed.  `submitSm` carries the parsed addresses together with the
answer of the environment to the HLR lookup and the 16 random bytes that the
`generate_message_id` call in the handler will draw, so that the session step
is a pure function. -/
inductive SessionPdu where
  | bindTransmitter (system_id password : String) (sequence : Nat)
  | bindReceiver (system_id password : String) (sequence : Nat)
  | bindTransceiver (system_id password : String) (sequence : Nat)
  | unbind (sequence : Nat)
  | submitSm (source_addr destination_addr : String) (randomBytes : List Nat)
      (outcome : LookupOutcome) (sequence : Nat)
  | enquireLink (sequence : Nat)
  | deliverSmResp (sequence : Nat)
  | unknown (command_id : Nat) (sequence : Nat)
deriving DecidableEq

/-- `SMPPSession._handle_bind` (src/smpp/server.py lines 243-255). -/
def handle_bind (cfg : ServerConfig) (st : SessionState)
    (system_id password : String) (sequence resp_cmd : Nat) :
    SessionState × List SentPdu :=
  if system_id = cfg.smpp_system_id ∧ password = cfg.smpp_password then
    ({ st with authenticated := true, system_id := some system_id },
     [⟨resp_cmd, 0, sequence, strBytes "SMPPGateway" ++ [0]⟩])
  else
    (st, [⟨resp_cmd, SMPP_ESME_RINVPASWD, sequence, []⟩])

/-- `SMPPSession._handle_unbind` (src/smpp/server.py lines 257-261): send
`UNBIND_RESP` with status 0, then set `self.authenticated = False`.  Nothing
stops the read loop. -/
def handle_unbind (st : SessionState) (sequence : Nat) :
    SessionState × List SentPdu :=
  ({ st with authenticated := false },
   [⟨SMPP_CMD_UNBIND_RESP, 0, sequence, []⟩])

/-- `SMPPSession._handle_enquire_link` (src/smpp/server.py lines 206-241). -/
def handle_enquire_link (st : SessionState) (sequence : Nat) :
    SessionState × List SentPdu :=
  (st, [⟨SMPP_CMD_ENQUIRE_LINK_RESP, 0, sequence, []⟩])

/-- `SMPPSession._handle_submit_sm` (src/smpp/server.py lines 263-288): run
the handler, then build the response body (`message_id` NUL-terminated, or a
single NUL when absent).  The DLR tasks scheduled by the handler are carried
alongside the writes. -/
def handle_submit_sm_session (_cfg : ServerConfig) (st : SessionState)
    (source_addr destination_addr : String) (randomBytes : List Nat)
    (outcome : LookupOutcome) (sequence : Nat) :
    SessionState × List SentPdu × List DlrTask :=
  let message_id := generate_message_id randomBytes
  let result := handle_submit_sm message_id "reject" source_addr
    destination_addr outcome
  match result.1 with
  | some resp =>
    let resp_body :=
      match resp.message_id with
      | some mid => strBytes mid ++ [0]
      | none => [0]
    (st, [⟨SMPP_CMD_SUBMIT_SM_RESP, resp.command_status, sequence, resp_body⟩],
     result.2)
  | none => (st, [], result.2)

/-- `SMPPSession._process_pdu` (src/smpp/server.py lines 161-204): dispatch on
command id.  Unauthenticated `SUBMIT_SM` gets `ESME_RINVBNDSTS`; unknown
command ids are silently ignored.  Returns the new state, the PDUs written,
and the DLR tasks scheduled.  No branch terminates the session. -/
def process_pdu (cfg : ServerConfig) (st : SessionState) (p : SessionPdu) :
    SessionState × List SentPdu × List DlrTask :=
  match p with
  | .bindTransmitter system_id password sequence =>
    let r := handle_bind cfg st system_id password sequence 0x80000001
    (r.1, r.2, [])
  | .bindReceiver system_id password sequence =>
    let r := handle_bind cfg st system_id password sequence 0x80000002
    (r.1, r.2, [])
  | .bindTransceiver system_id password sequence =>
    let r := handle_bind cfg st system_id password sequence 0x80000009
    (r.1, r.2, [])
  | .unbind sequence =>
    let r := handle_unbind st sequence
    (r.1, r.2, [])
  | .submitSm source_addr destination_addr randomBytes outcome sequence =>
    if st.authenticated then
      handle_submit_sm_session cfg st source_addr destination_addr
        randomBytes outcome sequence
    else
      (st, [⟨SMPP_CMD_SUBMIT_SM_RESP, SMPP_ESME_RINVBNDSTS, sequence, []⟩], [])
  | .enquireLink sequence =>
    let r := handle_enquire_link st sequence
    (r.1, r.2, [])
  | .deliverSmResp _ => (st, [], [])
  | .unknown _ _ => (st, [], [])

/-- The dispatch part of `SMPPSession.run` (src/smpp/server.py lines 115-146)
over a list of successfully framed PDUs: every PDU is processed in order;
`_process_pdu` never breaks the loop, so processing continues to the end of
the list. -/
def run_session (cfg : ServerConfig) (st : SessionState)
    (pdus : List SessionPdu) : SessionState × List SentPdu :=
  match pdus with
  | [] => (st, [])
  | p :: rest =>
    let r := process_pdu cfg st p
    let r2 := run_session cfg r.1 rest
    (r2.1, r.2.1 ++ r2.2)

/-- The DeliverSM body built by `SMPPSession.send_deliver_sm`
(src/smpp/server.py lines 392-439). -/
def deliverSmBody (source_addr destination_addr : String)
    (short_message : List Nat) : List Nat :=
  [0] ++ [1, 1] ++ strBytes source_addr ++ [0] ++ [1, 1] ++
    strBytes destination_addr ++ [0] ++ [0x04] ++ [0, 0] ++ [0] ++ [0] ++
    [1, 0] ++ [0] ++ [0] ++ [short_message.length] ++ short_message

/-- `SMPPSession.send_deliver_sm` (src/smpp/server.py lines 377-469): if the
session is not authenticated, return immediately without writing; otherwise
build the DeliverSM body, allocate the session-local sequence number and write
the PDU. -/
def send_deliver_sm (st : SessionState)
    (source_addr destination_addr : String) (short_message : List Nat) :
    SessionState × List SentPdu :=
  if st.authenticated = false then
    (st, [])
  else
    let body := deliverSmBody source_addr destination_addr short_message
    ({ st with sequence_number := st.sequence_number + 1 },
     [⟨SMPP_CMD_DELIVER_SM, 0, st.sequence_number, body⟩])

/-- C1: on an authenticated session, a SubmitSM whose HLR lookup result is
classified `"valid"` is answered with `ESME_RINVDSTADR` (0x0B), no
`message_id`, and no DLR task; one classified `"invalid"` is answered with
`ESME_ROK` (0x00), a `message_id`, and exactly one scheduled DLR task. -/
theorem C1_submit_classification_branches (mid policy src dst : String)
    (r : HlrRecord) :
    (r.classification.getD "invalid" = "valid" →
      handle_submit_sm mid policy src dst (.result r) =
        (some ⟨ESME_RINVDSTADR, none⟩, [])) ∧
    (r.classification.getD "invalid" = "invalid" →
      handle_submit_sm mid policy src dst (.result r) =
        (some ⟨ESME_ROK, some mid⟩, [⟨mid, dst, src, r⟩])) := by
  constructor <;> intro h <;> simp [handle_submit_sm, h]

/-- Witness for C1 at concrete valid and invalid records. -/
theorem C1_submit_classification_branches_witness :
    handle_submit_sm "m1" "reject" "100" "200"
        (.result ⟨some 0, some 0, some "yes", some "valid"⟩) =
      (some ⟨ESME_RINVDSTADR, none⟩, []) ∧
    handle_submit_sm "m1" "reject" "100" "200"
        (.result ⟨some 1, some 1, none, some "invalid"⟩) =
      (some ⟨ESME_ROK, some "m1"⟩,
       [⟨"m1", "200", "100", ⟨some 1, some 1, none, some "invalid"⟩⟩]) :=
  ⟨(C1_submit_classification_branches "m1" "reject" "100" "200"
      ⟨some 0, some 0, some "yes", some "valid"⟩).1 rfl,
   (C1_submit_classification_branches "m1" "reject" "100" "200"
      ⟨some 1, some 1, none, some "invalid"⟩).2 rfl⟩

/-- C2 counterexample: a record whose `error` field is absent and whose
`status` field is 0 is classified `"valid"`, although its `error` field does
not equal 0 (it is missing); so `classify(record) = valid ⇔ record.error = 0 ∧
record.status = 0` fails as stated. -/
theorem C2_classify_absent_error_counterexample :
    classify_result { status := some 0 } = "valid" ∧
    ({ status := some 0 : HlrRecord }).error ≠ some 0 := by
  constructor
  · rfl
  · simp

/-- C2 (amended): `_classify_result` returns `"valid"` iff the `error` field
is absent or equal to 0 and the `status` field is present and equal to 0
(absent `error` defaults to 0, absent `status` defaults to 1); on every record
it returns either `"valid"` or `"invalid"`, and it is a total function of the
record. -/
theorem C2_classify_characterization (r : HlrRecord) :
    (classify_result r = "valid" ↔
      (r.error = none ∨ r.error = some 0) ∧ r.status = some 0) ∧
    (classify_result r = "valid" ∨ classify_result r = "invalid") := by
  obtain ⟨e, s, p, c⟩ := r
  constructor
  · cases e <;> cases s <;> simp [classify_result]
  · simp only [classify_result]
    split_ifs <;> simp

/-- C3: when the HLR lookup raises (a timeout under the `"reject"` policy, or
any other error), the response is `ESME_RSYSERR` (0x08) with no `message_id`
and no DLR task is scheduled. -/
theorem C3_lookup_error_rejected (mid policy src dst : String)
    (outcome : LookupOutcome) (hp : policy = "reject")
    (ho : outcome = .timeout ∨ outcome = .failure) :
    handle_submit_sm mid policy src dst outcome =
      (some ⟨ESME_RSYSERR, none⟩, []) := by
  rcases ho with h | h <;> subst h <;> simp [handle_submit_sm, hp]

/-- Witness for C3 at a concrete timeout. -/
theorem C3_lookup_error_rejected_witness :
    handle_submit_sm "m2" "reject" "100" "200" .timeout =
      (some ⟨ESME_RSYSERR, none⟩, []) :=
  C3_lookup_error_rejected "m2" "reject" "100" "200" .timeout rfl (Or.inl rfl)

/-- C4 (code bug): `generate_message_id` returns the full `str(uuid.uuid4())`,
a 36-character string, not a 16-character token; evaluated at 16 zero random
bytes. -/
theorem C4_message_id_is_36_chars :
    generate_message_id (List.replicate 16 0) =
      "00000000-0000-4000-8000-000000000000" ∧
    (generate_message_id (List.replicate 16 0)).length = 36 := by
  constructor <;> rfl

/-- C9: `send_deliver_sm` on a session whose `authenticated` flag is false
writes nothing to the peer. -/
theorem C9_unauthenticated_dlr_dropped (st : SessionState)
    (source_addr destination_addr : String) (short_message : List Nat)
    (h : st.authenticated = false) :
    send_deliver_sm st source_addr destination_addr short_message =
      (st, []) := by
  simp [send_deliver_sm, h]

/-- Witness for C9 at the initial session state. -/
theorem C9_unauthenticated_dlr_dropped_witness :
    send_deliver_sm {} "200" "100" [84, 69] = ({}, []) :=
  C9_unauthenticated_dlr_dropped {} "200" "100" [84, 69] rfl

/-- C10: an HLR result without a `classification` key defaults to
`"invalid"`: the submit is accepted with `ESME_ROK`, a `message_id`, and one
scheduled DLR task. -/
theorem C10_missing_classification_accepted (mid policy src dst : String)
    (r : HlrRecord) (h : r.classification = none) :
    handle_submit_sm mid policy src dst (.result r) =
      (some ⟨ESME_ROK, some mid⟩, [⟨mid, dst, src, r⟩]) := by
  simp [handle_submit_sm, h]

/-- Witness for C10 at a record with no fields at all. -/
theorem C10_missing_classification_accepted_witness :
    handle_submit_sm "m3" "reject" "100" "200" (.result {}) =
      (some ⟨ESME_ROK, some "m3"⟩, [⟨"m3", "200", "100", {}⟩]) :=
  C10_missing_classification_accepted "m3" "reject" "100" "200" {} rfl

/-- C5 counterexample: a PDU with `command_length = 10 < 16` is not rejected
with `InvalidLength`: the framing step succeeds, yielding an empty body, and
the PDU is processed. -/
theorem C5_small_length_not_rejected_counterexample :
    read_pdu [0, 0, 0, 10, 0, 0, 0, 0x15, 0, 0, 0, 0, 0, 0, 0, 1] =
      .ok 10 0x15 0 1 [] [] ∧ (10 : Nat) < 16 := by
  decide

/-- C5 (amended): the framing step reads exactly 16 header bytes, then
exactly `command_length − 16` body bytes when `command_length > 16` and none
otherwise, and ends the session (short read) when the stream ends mid-header
or mid-body; there is no `OversizedPdu` or `InvalidLength` rejection:
`command_length > 64 KiB` is read in full and `command_length < 16` yields an
empty body, both processed normally. -/
theorem C5_framing_characterization (stream : List Nat) (cl : Nat)
    (hcl : cl = beWord (stream.getD 0 0) (stream.getD 1 0) (stream.getD 2 0)
      (stream.getD 3 0)) :
    (stream.length < 16 → read_pdu stream = .shortRead) ∧
    (16 ≤ stream.length → cl ≤ 16 →
      ∃ cid cst seq, read_pdu stream = .ok cl cid cst seq [] (stream.drop 16)) ∧
    (16 ≤ stream.length → 16 < cl → stream.length < cl →
      read_pdu stream = .shortRead) ∧
    (16 ≤ stream.length → 16 < cl → cl ≤ stream.length →
      ∃ cid cst seq body,
        read_pdu stream = .ok cl cid cst seq body (stream.drop cl) ∧
          body.length = cl - 16) := by
  subst hcl
  refine ⟨?_, ?_, ?_, ?_⟩
  · intro h
    simp only [read_pdu]
    rw [if_pos h]
  · intro h16 hle
    simp only [read_pdu]
    rw [if_neg (by omega), if_neg (by omega)]
    exact ⟨_, _, _, rfl⟩
  · intro h16 hgt hshort
    simp only [read_pdu]
    rw [if_neg (by omega), if_pos hgt, if_pos hshort]
  · intro h16 hgt hlen
    simp only [read_pdu]
    rw [if_neg (by omega), if_pos hgt, if_neg (by omega)]
    refine ⟨_, _, _, _, rfl, ?_⟩
    simp only [List.length_take, List.length_drop]
    omega

/-- Witness for C5 at a 20-byte stream whose `command_length` is 20. -/
theorem C5_framing_characterization_witness :
    ∃ cid cst seq body,
      read_pdu [0, 0, 0, 20, 0, 0, 0, 4, 0, 0, 0, 0, 0, 0, 0, 7, 9, 9, 9, 9] =
        .ok 20 cid cst seq body [] ∧ body.length = 20 - 16 :=
  (C5_framing_characterization
      [0, 0, 0, 20, 0, 0, 0, 4, 0, 0, 0, 0, 0, 0, 0, 7, 9, 9, 9, 9] 20
      (by decide)).2.2.2 (by decide) (by decide) (by decide)

/-- C6 counterexample: after a bind with wrong credentials is answered with
`ESME_RINVPASWD`, the session is not terminated: a following `ENQUIRE_LINK`
on the same session is still processed and answered. -/
theorem C6_failed_bind_session_continues_counterexample :
    (run_session ⟨"testuser", "testpass"⟩ {}
        [.bindTransceiver "baduser" "badpass" 1, .enquireLink 2]).2 =
      [⟨0x80000009, SMPP_ESME_RINVPASWD, 1, []⟩,
       ⟨SMPP_CMD_ENQUIRE_LINK_RESP, 0, 2, []⟩] := by
  decide

/-- C6 (amended): a bind whose credentials do not both match the configured
constants is answered with status `ESME_RINVPASWD` (0x0E) and the session
state is unchanged; the session is not closed, and subsequent PDUs on the
same session are still processed. -/
theorem C6_bad_credentials_keep_session_open (cfg : ServerConfig)
    (st : SessionState) (system_id password : String)
    (sequence resp_cmd : Nat)
    (h : ¬(system_id = cfg.smpp_system_id ∧ password = cfg.smpp_password)) :
    handle_bind cfg st system_id password sequence resp_cmd =
      (st, [⟨resp_cmd, SMPP_ESME_RINVPASWD, sequence, []⟩]) ∧
    ∀ rest : List SessionPdu,
      (run_session cfg st
          (.bindTransceiver system_id password sequence :: rest)).2 =
        ⟨0x80000009, SMPP_ESME_RINVPASWD, sequence, []⟩ ::
          (run_session cfg st rest).2 := by
  constructor
  · simp [handle_bind, h]
  · intro rest
    simp [run_session, process_pdu, handle_bind, h]

/-- Witness for C6 at concrete mismatched credentials. -/
theorem C6_bad_credentials_keep_session_open_witness :
    handle_bind ⟨"testuser", "testpass"⟩ {} "someuser" "somepass" 5
        0x80000001 =
      ({}, [⟨0x80000001, SMPP_ESME_RINVPASWD, 5, []⟩]) :=
  (C6_bad_credentials_keep_session_open ⟨"testuser", "testpass"⟩ {}
    "someuser" "somepass" 5 0x80000001 (by decide)).1

/-- C8 counterexample: after UNBIND is handled the session is not terminal: a
following `ENQUIRE_LINK` on the same session is still processed and
answered. -/
theorem C8_unbind_session_continues_counterexample :
    (run_session ⟨"testuser", "testpass"⟩ {} [.unbind 1, .enquireLink 2]).2 =
      [⟨SMPP_CMD_UNBIND_RESP, 0, 1, []⟩,
       ⟨SMPP_CMD_ENQUIRE_LINK_RESP, 0, 2, []⟩] := by
  decide

/-- C8 (amended): handling UNBIND sends `UNBIND_RESP` and clears the
`authenticated` flag, but the session is not terminal: the reader keeps
running and every subsequent PDU from the peer is still processed on the
session. -/
theorem C8_unbind_clears_auth_but_not_terminal (cfg : ServerConfig)
    (st : SessionState) (sequence : Nat) :
    handle_unbind st sequence =
      ({ st with authenticated := false },
       [⟨SMPP_CMD_UNBIND_RESP, 0, sequence, []⟩]) ∧
    ∀ rest : List SessionPdu,
      (run_session cfg st (.unbind sequence :: rest)).2 =
        ⟨SMPP_CMD_UNBIND_RESP, 0, sequence, []⟩ ::
          (run_session cfg { st with authenticated := false } rest).2 := by
  constructor
  · rfl
  · intro rest
    simp [run_session, process_pdu, handle_unbind]

/-- `pad2` of an in-range `strftime` field is exactly two decimal digits. -/
theorem pad2_shape : ∀ n : Nat, n < 100 →
    (pad2 n).length = 2 ∧ ∀ c ∈ (pad2 n).data, c.isDigit = true := by
  decide

/-- `format_smpp_date` of an in-range datetime is exactly ten decimal
digits. -/
theorem format_smpp_date_shape (d : PyDateTime) (hd : d.inRange) :
    (format_smpp_date d).length = 10 ∧
      ∀ c ∈ (format_smpp_date d).data, c.isDigit = true := by
  obtain ⟨h1, h2, h3, h4, h5, h6⟩ := hd
  have hy := pad2_shape (d.year % 100) (Nat.mod_lt _ (by norm_num))
  have hm := pad2_shape d.month (by omega)
  have hdy := pad2_shape d.day (by omega)
  have hh := pad2_shape d.hour (by omega)
  have hmi := pad2_shape d.minute (by omega)
  constructor
  · simp [format_smpp_date, String.length_append, hy.1, hm.1, hdy.1, hh.1,
      hmi.1]
  · intro c hc
    simp only [format_smpp_date, String.data_append, List.mem_append] at hc
    rcases hc with (((h | h) | h) | h) | h
    exacts [hy.2 c h, hm.2 c h, hdy.2 c h, hh.2 c h, hmi.2 c h]

/-- Every branch of `get_error_code_from_hlr` returns `"000"`. -/
theorem get_error_code_always_000 (r : HlrRecord) :
    get_error_code_from_hlr r = "000" := by
  simp only [get_error_code_from_hlr]
  split_ifs <;> rfl

/-- C7: for every (non-empty, whitespace-free) message id and every HLR
result, the DLR text built with `stat = "DELIVRD"` and the error code mapped
from the HLR result matches
`^id:\S+ sub:001 dlvrd:000 submit date:\d\x7b10\x7d done date:\d\x7b10\x7d stat:DELIVRD err:000 text:$`;
in particular the `err` field is always `"000"`. -/
theorem C7_dlr_text_matches_regex (mid : String) (r : HlrRecord)
    (sd dd : PyDateTime) (hmid : mid.length > 0)
    (hws : ∀ c ∈ mid.data, ¬ c.isWhitespace)
    (hsd : sd.inRange) (hdd : dd.inRange) :
    dlrRegexSpec
        (build_dlr_text mid "DELIVRD" (get_error_code_from_hlr r) sd dd) ∧
      get_error_code_from_hlr r = "000" := by
  have herr := get_error_code_always_000 r
  refine ⟨⟨mid, format_smpp_date sd, format_smpp_date dd, ?_, hmid, hws,
    (format_smpp_date_shape sd hsd).1, (format_smpp_date_shape sd hsd).2,
    (format_smpp_date_shape dd hdd).1, (format_smpp_date_shape dd hdd).2⟩,
    herr⟩
  rw [herr]
  unfold build_dlr_text
  have e1 : (" sub:001 dlvrd:000 submit date:" : String) =
      " " ++ "sub:001 " ++ "dlvrd:000 " ++ "submit date:" := by decide
  have e2 : (" done date:" : String) = " " ++ "done date:" := by decide
  have e3 : (" stat:DELIVRD err:000 text:" : String) =
      " " ++ "stat:" ++ "DELIVRD" ++ " " ++ "err:" ++ "000" ++ " " ++
        "text:" := by decide
  rw [e1, e2, e3]
  simp [String.append_assoc]

/-- Witness for C7 at a concrete message id, record and dates. -/
theorem C7_dlr_text_matches_regex_witness :
    dlrRegexSpec
        (build_dlr_text "abc123" "DELIVRD" (get_error_code_from_hlr {})
          ⟨2025, 10, 9, 14, 30⟩ ⟨2025, 10, 9, 14, 35⟩) ∧
      get_error_code_from_hlr {} = "000" :=
  C7_dlr_text_matches_regex "abc123" {} ⟨2025, 10, 9, 14, 30⟩
    ⟨2025, 10, 9, 14, 35⟩ (by decide) (by decide) (by decide) (by decide)

end Smpp
